import Mathlib

/-!
# carbide-registry-api: release data access and product handlers

A shallow embedding of `pkg/database/release.go` and of the product handlers of
`pkg/api/product.go`.

* Go's `error` values are the inductive `GoError` (`errors.New`, `fmt.Errorf` with
  one `%w` verb); a `nil` error is `none`.
* `*sql.DB` is a world: an abstract store `σ` driven by the functions of `Env`,
  together with the ordered log of every call made on the handle.
* Pointer fields (`*int32`, `*string`) are `Option`s; `int32` values are never
  computed with, so they are plain `Int`s.
-/

namespace Carbide

/-! ## Errors and formatting -/

/-- Go `error` values built by the code: `errors.New(msg)` and
`fmt.Errorf(format, err)` with a `%w` verb in `format`. -/
inductive GoError where
  | New (msg : String)
  | Errorf (format : String) (err : GoError)
  deriving DecidableEq, Repr

/-- Replace the first occurrence of the verb `%c` in a format by `arg`. -/
def substVerb (c : Char) : List Char → List Char → List Char
  | [], _ => []
  | [x], _ => [x]
  | x :: y :: rest, arg =>
    if x = '%' ∧ y = c then arg ++ rest else x :: substVerb c (y :: rest) arg

/-- The call `fmt.Sprintf(format, arg)` for a format with one `%s` verb. -/
def Sprintf (format arg : String) : String :=
  ⟨substVerb 's' format.data arg.data⟩

/-- The method `err.Error()`: the message of an error. -/
def GoError.Error : GoError → String
  | .New msg => msg
  | .Errorf format err => ⟨substVerb 'w' format.data err.Error.data⟩

/-- A message names a field when the field's name occurs in it. -/
def names (msg field : String) : Prop := field.data <:+: msg.data

instance (msg field : String) : Decidable (names msg field) := by
  unfold names; infer_instance

/-! ## Entities (`pkg/objects`) -/

/-- Modelled from the spec: the type of `CreatedAt`/`UpdatedAt` is declared in
`pkg/objects`; they are server-assigned timestamps that
the code only copies. -/
abbrev Timestamp := String

/-- Modelled from the spec: `objects.Image` is declared in another package;
an artifact entity identified by `Id`. -/
structure Image where
  Id : Int
  deriving DecidableEq, Repr

/-- Modelled from the spec: `objects.Release` is declared in another package.
The fields are those the code scans and reads: `ProductId`, `Name` and
`TarballLink` are nilable pointers, `Id` is an `int32`. -/
structure Release where
  Id : Int
  ProductId : Option Int
  Name : Option String
  TarballLink : Option String
  CreatedAt : Timestamp
  UpdatedAt : Timestamp
  Images : List Image
  deriving DecidableEq, Repr

/-- The zero value of `objects.Release` (`var r objects.Release`). -/
def Release.zero : Release :=
  { Id := 0, ProductId := none, Name := none, TarballLink := none,
    CreatedAt := "", UpdatedAt := "", Images := [] }

/-- Modelled from the spec: `objects.Product` is declared in another package:
`Id` (server-assigned) and a nilable `Name`. -/
structure Product where
  Id : Int
  Name : Option String
  deriving DecidableEq, Repr

/-- Modelled from the spec: `objects.Release_Image_Mapping` is declared in another
package: the join record `{ReleaseId, ImageId}`; `ReleaseId` is dereferenced by
the code, so it is a nilable pointer. -/
structure Release_Image_Mapping where
  ReleaseId : Option Int
  ImageId : Option Int
  deriving DecidableEq, Repr

/-! ## The store handle -/

/-- An argument bound to a `?` placeholder. -/
inductive SqlArg where
  | int (v : Int)
  | str (v : String)
  deriving DecidableEq, Repr

/-- One row of `releases`, in the column order
`(Id, ProductId, Name, TarballLink, CreatedAt, UpdatedAt)`. -/
structure ReleaseRow where
  Id : Int
  ProductId : Option Int
  Name : Option String
  TarballLink : Option String
  CreatedAt : Timestamp
  UpdatedAt : Timestamp
  deriving DecidableEq, Repr

/-- The zero values of the six destinations of a scan. -/
def ReleaseRow.zero : ReleaseRow :=
  { Id := 0, ProductId := none, Name := none, TarballLink := none,
    CreatedAt := "", UpdatedAt := "" }

/-- A failed `QueryRow(...).Scan(...)`: the error, and the six destinations as the
failed call leaves them. `database/sql` stores the columns that precede the failing
one and leaves the others at their zero value; when no row was found all six are at
their zero value. -/
structure ScanFailure where
  err : GoError
  stored : ReleaseRow
  deriving DecidableEq, Repr

/-- A result cursor (`*sql.Rows`): the outcome of `Scan` for each row that `Next`
delivers, then the value of `rows.Err()` once `Next` has returned false. -/
structure Rows where
  scans : List (Except GoError ReleaseRow)
  err : Option GoError

/-- Every call the code makes on the store handle, in order. -/
inductive Call where
  | Exec (sql : String) (args : List SqlArg)
  | QueryRow (sql : String) (args : List SqlArg)
  | Query (sql : String) (args : List SqlArg)
  | RowsClose
  | GetProduct (product_name : String)
  | GetAllImagesforRelease (release_id : Int)
  | GetReleaseMappings (image_id : Int)
  | UpdateProduct (new_name : String) (product_name : String)
  deriving DecidableEq, Repr

/-- The store behind the handle. `exec`, `queryRow` and `query` are the driver
(`database/sql`); the other fields are the functions of `pkg/database` that are
declared in another package and are called by the code embedded here. Each
takes the store state and returns its Go results and the next state. -/
structure Env (σ : Type) where
  exec : String → List SqlArg → σ → Option GoError × σ
  queryRow : String → List SqlArg → σ → Except ScanFailure ReleaseRow × σ
  query : String → List SqlArg → σ → Except GoError Rows × σ
  getProduct : String → σ → (Product × Option GoError) × σ
  getAllImagesforRelease : Int → σ → (List Image × Option GoError) × σ
  getReleaseMappings : Int → σ → (List Release_Image_Mapping × Option GoError) × σ
  updateProduct : String → String → σ → Option GoError × σ

/-- The state of a `*sql.DB` handle: the store and the log of calls made on it. -/
structure World (σ : Type) where
  store : σ
  log : List Call

variable {σ : Type}

/-- The call `db.Exec(sql, args...)`; the `sql.Result` is discarded by every caller. -/
def dbExec (env : Env σ) (sql : String) (args : List SqlArg) (w : World σ) :
    Option GoError × World σ :=
  let r := env.exec sql args w.store
  (r.1, { store := r.2, log := w.log ++ [Call.Exec sql args] })

/-- The call `db.QueryRow(sql, args...).Scan(...)` over the six release columns. -/
def dbQueryRow (env : Env σ) (sql : String) (args : List SqlArg) (w : World σ) :
    Except ScanFailure ReleaseRow × World σ :=
  let r := env.queryRow sql args w.store
  (r.1, { store := r.2, log := w.log ++ [Call.QueryRow sql args] })

/-- The call `db.Query(sql, args...)`. -/
def dbQuery (env : Env σ) (sql : String) (args : List SqlArg) (w : World σ) :
    Except GoError Rows × World σ :=
  let r := env.query sql args w.store
  (r.1, { store := r.2, log := w.log ++ [Call.Query sql args] })

/-- The deferred `rows.Close()`. -/
def rowsClose (w : World σ) : World σ :=
  { w with log := w.log ++ [Call.RowsClose] }

/-- The call `GetProduct(db, product_name)`. -/
def GetProduct (env : Env σ) (product_name : String) (w : World σ) :
    (Product × Option GoError) × World σ :=
  let r := env.getProduct product_name w.store
  (r.1, { store := r.2, log := w.log ++ [Call.GetProduct product_name] })

/-- The call `GetAllImagesforRelease(db, release_id)`. -/
def GetAllImagesforRelease (env : Env σ) (release_id : Int) (w : World σ) :
    (List Image × Option GoError) × World σ :=
  let r := env.getAllImagesforRelease release_id w.store
  (r.1, { store := r.2, log := w.log ++ [Call.GetAllImagesforRelease release_id] })

/-- The call `GetReleaseMappings(db, image_id)`. -/
def GetReleaseMappings (env : Env σ) (image_id : Int) (w : World σ) :
    (List Release_Image_Mapping × Option GoError) × World σ :=
  let r := env.getReleaseMappings image_id w.store
  (r.1, { store := r.2, log := w.log ++ [Call.GetReleaseMappings image_id] })

/-- The call `UpdateProduct(db, new_name, product_name)`. -/
def UpdateProduct (env : Env σ) (new_name product_name : String) (w : World σ) :
    Option GoError × World σ :=
  let r := env.updateProduct new_name product_name w.store
  (r.1, { store := r.2, log := w.log ++ [Call.UpdateProduct new_name product_name] })

/-- The effect of `Scan(&r.Id, &r.ProductId, &r.Name, &r.TarballLink, &r.CreatedAt,
&r.UpdatedAt)` on its destination: the six fields take the given values, `Images` is
left as it was. -/
def Scan (row : ReleaseRow) (dest : Release) : Release :=
  { dest with
    Id := row.Id, ProductId := row.ProductId, Name := row.Name,
    TarballLink := row.TarballLink, CreatedAt := row.CreatedAt,
    UpdatedAt := row.UpdatedAt }

/-! ## `pkg/database/release.go` -/

/-- The function `AddRelease` of release.go. -/
def AddRelease (env : Env σ) (new_release : Release) (w : World σ) :
    Option GoError × World σ :=
  let required_field := "Missing field \"%s\" required when creating a new release"
  let sql_error := "Error creating new release: %w"
  match new_release.ProductId with
  | none => (some (GoError.New (Sprintf required_field "Product Id")), w)
  | some product_id =>
    match new_release.Name with
    | none => (some (GoError.New (Sprintf required_field "Name")), w)
    | some name =>
      match new_release.TarballLink with
      | none =>
        match dbExec env "INSERT INTO releases (product_id, name) VALUES (?, ?)"
            [SqlArg.int product_id, SqlArg.str name] w with
        | (some err, w1) => (some (GoError.Errorf sql_error err), w1)
        | (none, w1) => (none, w1)
      | some tarball_link =>
        match dbExec env
            "INSERT INTO releases (product_id, name, tarball_link) VALUES (?, ?, ?)"
            [SqlArg.int product_id, SqlArg.str name, SqlArg.str tarball_link] w with
        | (some err, w1) => (some (GoError.Errorf sql_error err), w1)
        | (none, w1) => (none, w1)

/-- The function `GetRelease` of release.go. With a row error it returns
`retrieved_release` as the failed scan left it. -/
def GetRelease (env : Env σ) (release : Release) (w : World σ) :
    (Release × Option GoError) × World σ :=
  let required_field := "Missing field \"%s\" required when retrieving a release"
  let sql_error := "Error finding release: %w"
  let retrieved_release := Release.zero
  match release.ProductId with
  | none => ((retrieved_release, some (GoError.New (Sprintf required_field "Product Id"))), w)
  | some product_id =>
    match release.Name with
    | none => ((retrieved_release, some (GoError.New (Sprintf required_field "Name"))), w)
    | some name =>
      match dbQueryRow env "SELECT * FROM releases WHERE name = ? AND product_id = ?"
          [SqlArg.str name, SqlArg.int product_id] w with
      | (Except.error failure, w1) =>
        ((Scan failure.stored retrieved_release,
          some (GoError.Errorf sql_error failure.err)), w1)
      | (Except.ok row, w1) =>
        let retrieved_release := Scan row retrieved_release
        match GetAllImagesforRelease env retrieved_release.Id w1 with
        | ((images, some err), w2) =>
          (({ retrieved_release with Images := images }, some err), w2)
        | ((images, none), w2) =>
          (({ retrieved_release with Images := images }, none), w2)

/-- The function `UpdateRelease` of release.go. -/
def UpdateRelease (env : Env σ) (updated_release : Release) (w : World σ) :
    Option GoError × World σ :=
  let missing_field := "Missing field %s (needed to locate release in DB)"
  let sql_error := "Error updating new release: %w"
  match updated_release.ProductId with
  | none => (some (GoError.New (Sprintf missing_field "Product Id")), w)
  | some product_id =>
    match updated_release.Name with
    | none => (some (GoError.New (Sprintf missing_field "Name")), w)
    | some name =>
      match updated_release.TarballLink with
      | none => (some (GoError.New "No new data to update release with"), w)
      | some tarball_link =>
        match dbExec env
            "UPDATE releases SET tarball_link = ? WHERE name = ? AND product_id = ?"
            [SqlArg.str tarball_link, SqlArg.str name, SqlArg.int product_id] w with
        | (some err, w1) => (some (GoError.Errorf sql_error err), w1)
        | (none, w1) => (none, w1)

/-- The function `DeleteRelease` of release.go. Its constant `sql_error`
("Error updating new release: %w") is declared and never used: a failed statement's
error is returned as it is. -/
def DeleteRelease (env : Env σ) (release_to_delete : Release) (w : World σ) :
    Option GoError × World σ :=
  let missing_field := "Missing field %s (needed to locate release in DB)"
  match release_to_delete.ProductId with
  | none => (some (GoError.New (Sprintf missing_field "Product Id")), w)
  | some product_id =>
    match release_to_delete.Name with
    | none => (some (GoError.New (Sprintf missing_field "Name")), w)
    | some name =>
      match dbExec env "DELETE FROM releases WHERE name = ? AND product_id = ?"
          [SqlArg.str name, SqlArg.int product_id] w with
      | (some err, w1) => (some err, w1)
      | (none, w1) => (none, w1)

/-- The loop `for rows.Next() { ...Scan...; releases = append(releases, release) }`
shared verbatim by `GetAllReleases` and `GetAllReleasesforProduct`: a failed `Scan`
sets `releases = nil` and returns the error from inside the loop. -/
def scanRows : List (Except GoError ReleaseRow) → List Release → List Release × Option GoError
  | [], releases => (releases, none)
  | Except.error err :: _, _ => ([], some err)
  | Except.ok row :: rest, releases => scanRows rest (releases ++ [Scan row Release.zero])

/-- The function `GetAllReleasesforProduct` of release.go. The error returned by
`GetProduct` is assigned to `err` and overwritten by `db.Query` without being read. -/
def GetAllReleasesforProduct (env : Env σ) (product_name : String) (w : World σ) :
    (List Release × Option GoError) × World σ :=
  match GetProduct env product_name w with
  | ((product, _), w1) =>
    let product_id := product.Id
    match dbQuery env "SELECT * FROM releases WHERE product_id = ?"
        [SqlArg.int product_id] w1 with
    | (Except.error err, w2) => (([], some err), w2)
    | (Except.ok rows, w2) =>
      match scanRows rows.scans [] with
      | (_, some err) => (([], some err), rowsClose w2)
      | (releases, none) =>
        match rows.err with
        | some err => (([], some err), rowsClose w2)
        | none => ((releases, none), rowsClose w2)

/-- The function `GetAllReleases` of release.go. -/
def GetAllReleases (env : Env σ) (w : World σ) :
    (List Release × Option GoError) × World σ :=
  match dbQuery env "SELECT * FROM releases" [] w with
  | (Except.error err, w1) => (([], some err), w1)
  | (Except.ok rows, w1) =>
    match scanRows rows.scans [] with
    | (_, some err) => (([], some err), rowsClose w1)
    | (releases, none) =>
      match rows.err with
      | some err => (([], some err), rowsClose w1)
      | none => ((releases, none), rowsClose w1)

/-- The function `GetReleaseWithoutImages` of release.go. With a row error it returns
`retrieved_release` as the failed scan left it. -/
def GetReleaseWithoutImages (env : Env σ) (release_id : Int) (w : World σ) :
    (Release × Option GoError) × World σ :=
  let retrieved_release := Release.zero
  let sql_error := "Error fetching release: %w"
  match dbQueryRow env "SELECT * FROM releases WHERE id = ?" [SqlArg.int release_id] w with
  | (Except.error failure, w1) =>
    ((Scan failure.stored retrieved_release, some (GoError.Errorf sql_error failure.err)), w1)
  | (Except.ok row, w1) => ((Scan row retrieved_release, none), w1)

/-- How a call ends: it returns its results, or it panics on a nil pointer
dereference. -/
inductive Outcome (α : Type) where
  | returned (a : α)
  | panicked
  deriving DecidableEq, Repr

/-- The loop `for _, release_image_mapping := range release_img_mappings` of
`GetAllReleasesforImage`; `fetched_releases` is the slice accumulated so far. A failed
lookup returns `fetched_releases` as it stands together with the error. -/
def fetchReleases (env : Env σ) :
    List Release_Image_Mapping → List Release → World σ →
      Outcome (List Release × Option GoError) × World σ
  | [], fetched_releases, w => (Outcome.returned (fetched_releases, none), w)
  | release_image_mapping :: rest, fetched_releases, w =>
    match release_image_mapping.ReleaseId with
    | none => (Outcome.panicked, w)
    | some release_id =>
      match GetReleaseWithoutImages env release_id w with
      | ((_, some err), w1) => (Outcome.returned (fetched_releases, some err), w1)
      | ((release, none), w1) => fetchReleases env rest (fetched_releases ++ [release]) w1

/-- The function `GetAllReleasesforImage` of release.go. -/
def GetAllReleasesforImage (env : Env σ) (image_id : Int) (w : World σ) :
    Outcome (List Release × Option GoError) × World σ :=
  let fetched_releases : List Release := []
  match GetReleaseMappings env image_id w with
  | ((_, some err), w1) => (Outcome.returned (fetched_releases, some err), w1)
  | ((release_img_mappings, none), w1) =>
    fetchReleases env release_img_mappings fetched_releases w1

/-! ## `pkg/api/product.go` -/

/-- An `http.ResponseWriter` that records what the handler sends: the header map,
the status passed to `WriteHeader` (`none` while no header has been written) and the
body written so far. -/
structure ResponseWriter where
  header : List (String × String)
  status : Option Nat
  body : String
  deriving DecidableEq, Repr

/-- A writer on which nothing has been called yet. -/
def ResponseWriter.fresh : ResponseWriter := { header := [], status := none, body := "" }

/-- The call `w.Header().Set(key, value)`; once the header is written, changes to
the map are not sent. -/
def ResponseWriter.HeaderSet (w : ResponseWriter) (key value : String) : ResponseWriter :=
  match w.status with
  | some _ => w
  | none => { w with header := (w.header.filter (fun kv => kv.1 ≠ key)) ++ [(key, value)] }

/-- The call `w.WriteHeader(code)`; a second call is ignored. -/
def ResponseWriter.WriteHeader (w : ResponseWriter) (code : Nat) : ResponseWriter :=
  match w.status with
  | some _ => w
  | none => { w with status := some code }

/-- The call `w.Write(data)`; it writes the header with status 200 first when no
header was written. -/
def ResponseWriter.Write (w : ResponseWriter) (data : String) : ResponseWriter :=
  let w1 := w.WriteHeader 200
  { w1 with body := w1.body ++ data }

/-- The standard `http.Error(w, msg, code)`. -/
def http_Error (w : ResponseWriter) (msg : String) (code : Nat) : ResponseWriter :=
  let w1 := w.HeaderSet "Content-Type" "text/plain; charset=utf-8"
  let w2 := w1.HeaderSet "X-Content-Type-Options" "nosniff"
  (w2.WriteHeader code).Write (msg ++ "\n")

/-- The status the client receives once the handler has returned: 200 when the
handler never wrote a header. -/
def ResponseWriter.sentStatus (w : ResponseWriter) : Nat := w.status.getD 200

def StatusBadRequest : Nat := 400
def StatusInternalServerError : Nat := 500
def StatusOK : Nat := 200

/-- An entry written through logrus. -/
inductive LogEntry where
  | Error (err : GoError)
  | Info (product : String) (msg : String)
  deriving DecidableEq, Repr

/-- What the handlers use besides the store: the JSON codec and `httpJSONError`,
which is declared elsewhere in `pkg/api`. -/
structure Api where
  Decode : String → Except GoError Product
  Marshal : Product → Except GoError String
  httpJSONError : ResponseWriter → String → Nat → ResponseWriter

/-- The state a handler leaves behind: the response, the log entries, the store. -/
structure Handled (σ : Type) where
  w : ResponseWriter
  logged : List LogEntry
  db : World σ

/-- The handler `productGetByName` of product.go. -/
def productGetByName (api : Api) (env : Env σ) (w : ResponseWriter) (db : World σ)
    (product_name : String) : Handled σ :=
  match GetProduct env product_name db with
  | ((_, some err), db1) => { w := w, logged := [LogEntry.Error err], db := db1 }
  | ((retrieved_product, none), db1) =>
    match api.Marshal retrieved_product with
    | Except.error err =>
      { w := http_Error w err.Error StatusInternalServerError, logged := [], db := db1 }
    | Except.ok retrieved_product_json =>
      { w := (w.HeaderSet "Content-Type" "application/json").Write retrieved_product_json,
        logged := [], db := db1 }

/-- The handler `productPutByName` of product.go; `body` is the request body. -/
def productPutByName (api : Api) (env : Env σ) (w : ResponseWriter) (body : String)
    (db : World σ) (product_name : String) : Outcome Unit × Handled σ :=
  match api.Decode body with
  | Except.error err =>
    (Outcome.returned (), { w := http_Error w err.Error StatusBadRequest, logged := [], db := db })
  | Except.ok updated_product =>
    match updated_product.Name with
    | none => (Outcome.panicked, { w := w, logged := [], db := db })
    | some new_name =>
      match UpdateProduct env new_name product_name db with
      | (some err, db1) =>
        (Outcome.returned (), { w := w, logged := [LogEntry.Error err], db := db1 })
      | (none, db1) =>
        match GetProduct env new_name db1 with
        | ((_, some err), db2) =>
          (Outcome.returned (), { w := w, logged := [LogEntry.Error err], db := db2 })
        | ((updated_product, none), db2) =>
          match updated_product.Name with
          | none => (Outcome.panicked, { w := w, logged := [], db := db2 })
          | some fetched_name =>
            let logged := [LogEntry.Info fetched_name "Product has been successfully updated"]
            match api.Marshal updated_product with
            | Except.error err =>
              (Outcome.returned (),
                { w := api.httpJSONError w err.Error StatusInternalServerError,
                  logged := logged, db := db2 })
            | Except.ok updated_product_json =>
              (Outcome.returned (),
                { w := ((w.WriteHeader StatusOK).HeaderSet "Content-Type"
                    "application/json").Write updated_product_json,
                  logged := logged, db := db2 })

/-! ## Sample stores -/

/-- A row of `releases` with the given id. -/
def sampleRow (id : Int) : ReleaseRow :=
  { Id := id, ProductId := some 1, Name := some "v1", TarballLink := none,
    CreatedAt := "2023-05-01 10:00:00", UpdatedAt := "2023-05-01 10:00:00" }

/-- A store in which every call succeeds; its state counts the statements run. -/
def okEnv : Env Nat where
  exec := fun _ _ s => (none, s + 1)
  queryRow := fun _ args s =>
    match args with
    | [SqlArg.int id] => (Except.ok (sampleRow id), s)
    | _ => (Except.ok (sampleRow 1), s)
  query := fun _ _ s =>
    (Except.ok { scans := [Except.ok (sampleRow 1), Except.ok (sampleRow 2)], err := none }, s)
  getProduct := fun product_name s => (({ Id := 1, Name := some product_name }, none), s)
  getAllImagesforRelease := fun _ s => (([{ Id := 10 }, { Id := 11 }], none), s)
  getReleaseMappings := fun image_id s =>
    (([{ ReleaseId := some 1, ImageId := some image_id },
       { ReleaseId := some 2, ImageId := some image_id }], none), s)
  updateProduct := fun _ _ s => (none, s + 1)

/-- The error of a store that cannot be reached. -/
def connRefused : GoError := GoError.New "dial tcp 127.0.0.1:3306: connect: connection refused"

/-- The error `sql.ErrNoRows`. -/
def ErrNoRows : GoError := GoError.New "sql: no rows in result set"

/-- A store in which every call fails. -/
def downEnv : Env Nat where
  exec := fun _ _ s => (some connRefused, s)
  queryRow := fun _ _ s => (Except.error { err := connRefused, stored := ReleaseRow.zero }, s)
  query := fun _ _ s => (Except.error connRefused, s)
  getProduct := fun _ s => (({ Id := 0, Name := none }, some connRefused), s)
  getAllImagesforRelease := fun _ s => (([], some connRefused), s)
  getReleaseMappings := fun _ s => (([], some connRefused), s)
  updateProduct := fun _ _ s => (some connRefused, s)

/-- A handle on which nothing has been called. -/
def world0 : World Nat := { store := 0, log := [] }

/-- A release value carrying only the listed fields. -/
def mkRelease (product_id : Option Int) (name tarball_link : Option String) : Release :=
  { Release.zero with ProductId := product_id, Name := name, TarballLink := tarball_link }

/-- What a listing returns for a given outcome of its query. -/
def listResult : Except GoError Rows → List Release × Option GoError
  | Except.error err => ([], some err)
  | Except.ok rows =>
    match scanRows rows.scans [] with
    | (_, some err) => ([], some err)
    | (releases, none) =>
      match rows.err with
      | some err => ([], some err)
      | none => (releases, none)

/-- The contract of a listing whose query ended as `q` and which returned `out`. -/
def AllOrNothing (q : Except GoError Rows) (out : List Release × Option GoError) : Prop :=
  (∀ e, q = Except.error e → out = ([], some e)) ∧
  (∀ (rows : Rows) (scanned : List ReleaseRow) e rest, q = Except.ok rows →
    rows.scans = scanned.map Except.ok ++ Except.error e :: rest → out = ([], some e)) ∧
  (∀ (rows : Rows) (scanned : List ReleaseRow) e, q = Except.ok rows → rows.scans = scanned.map Except.ok →
    rows.err = some e → out = ([], some e)) ∧
  (out.1 ≠ [] → out.2 = none) ∧
  (out.2 = none → ∃ (rows : Rows) (scanned : List ReleaseRow), q = Except.ok rows ∧ rows.scans = scanned.map Except.ok ∧
    rows.err = none ∧ out.1 = scanned.map (fun row => Scan row Release.zero))

/-- A store whose listing query delivers a row that fails to scan. -/
def scanFailEnv : Env Nat :=
  { okEnv with
    query := fun _ _ s =>
      (Except.ok
        { scans := [Except.ok (sampleRow 1),
                    Except.error (GoError.New "sql: Scan error on column index 3"),
                    Except.ok (sampleRow 3)],
          err := none }, s) }

/-- A store whose listing cursor breaks after the first row. -/
def cursorErrEnv : Env Nat :=
  { okEnv with
    query := fun _ _ s =>
      (Except.ok { scans := [Except.ok (sampleRow 1)],
                   err := some (GoError.New "unexpected EOF") }, s) }

/-- A store without the product asked for: `GetProduct` fails with `sql.ErrNoRows` and
returns the zero product, and no release row has product id 0. -/
def ghostEnv : Env Nat :=
  { okEnv with
    getProduct := fun _ s => (({ Id := 0, Name := none }, some ErrNoRows), s)
    query := fun _ _ s => (Except.ok { scans := [], err := none }, s) }

/-- A store in which image 7 is mapped to releases 1 and 2 and release 2 has no row. -/
def missingReleaseEnv : Env Nat :=
  { okEnv with
    queryRow := fun _ args s =>
      match args with
      | [SqlArg.int 2] => (Except.error { err := ErrNoRows, stored := ReleaseRow.zero }, s)
      | [SqlArg.int id] => (Except.ok (sampleRow id), s)
      | _ => (Except.ok (sampleRow 1), s) }

/-- The log entry of one `GetReleaseWithoutImages` lookup. -/
def releaseLookup (release_id : Int) : Call :=
  Call.QueryRow "SELECT * FROM releases WHERE id = ?" [SqlArg.int release_id]

/-- `LookupChain env w ids releases w1`: starting from the handle state `w`, calling
`GetReleaseWithoutImages` for each id of `ids` in turn, each call on the state the
previous one left, returns a nil error every time, returns the releases `releases` in
that order, and leaves the handle in state `w1`. -/
inductive LookupChain (env : Env σ) : World σ → List Int → List Release → World σ → Prop where
  | done (w : World σ) : LookupChain env w [] [] w
  | step {w w1 w2 : World σ} {release_id : Int} {release : Release}
      {ids : List Int} {releases : List Release}
      (first : GetReleaseWithoutImages env release_id w = ((release, none), w1))
      (others : LookupChain env w1 ids releases w2) :
      LookupChain env w (release_id :: ids) (release :: releases) w2

/-- A store in which image 7 is mapped to releases 1 and 2 and no release has a row. -/
def noReleaseEnv : Env Nat :=
  { okEnv with
    queryRow := fun _ _ s => (Except.error { err := ErrNoRows, stored := ReleaseRow.zero }, s) }

/-- A store whose answers depend on its state: every lookup by id advances the state,
and the row it returns has the id asked for plus the state it was asked in. -/
def driftEnv : Env Nat :=
  { okEnv with
    queryRow := fun _ args s =>
      match args with
      | [SqlArg.int id] => (Except.ok (sampleRow (id + s)), s + 1)
      | _ => (Except.ok (sampleRow 1), s + 1) }

/-- A JSON codec and error writer for the examples: the request body is taken as the
product name, a product is rendered by its name. -/
def sampleApi : Api where
  Decode := fun body => Except.ok { Id := 0, Name := some body }
  Marshal := fun product => Except.ok ("\"" ++ product.Name.getD "" ++ "\"")
  httpJSONError := fun w msg code =>
    ((w.HeaderSet "Content-Type" "application/json").WriteHeader code).Write
      ("\x7b\"error\": \"" ++ msg ++ "\"\x7d")

/-- A store whose release rows resolve and whose image resolution fails. -/
def noImagesEnv : Env Nat :=
  { okEnv with getAllImagesforRelease := fun _ s => (([], some connRefused), s) }

/-! ## Required fields (release.go) -/

/-- C1: each of AddRelease, GetRelease, UpdateRelease and DeleteRelease rejects a
release without ProductId with an error naming "Product Id" (and not "Name", also
when Name is absent too), and a release with ProductId but without Name with an
error naming "Name"; in both cases the handle is returned as it was: no call is made
on the store. -/
theorem required_fields_checked_before_store (env : Env σ) (r : Release) (w : World σ) :
    (r.ProductId = none →
      (∃ msg, AddRelease env r w = (some (GoError.New msg), w)
          ∧ names msg "Product Id" ∧ ¬ names msg "Name") ∧
      (∃ msg, GetRelease env r w = ((Release.zero, some (GoError.New msg)), w)
          ∧ names msg "Product Id" ∧ ¬ names msg "Name") ∧
      (∃ msg, UpdateRelease env r w = (some (GoError.New msg), w)
          ∧ names msg "Product Id" ∧ ¬ names msg "Name") ∧
      (∃ msg, DeleteRelease env r w = (some (GoError.New msg), w)
          ∧ names msg "Product Id" ∧ ¬ names msg "Name")) ∧
    (r.ProductId ≠ none → r.Name = none →
      (∃ msg, AddRelease env r w = (some (GoError.New msg), w) ∧ names msg "Name") ∧
      (∃ msg, GetRelease env r w = ((Release.zero, some (GoError.New msg)), w)
          ∧ names msg "Name") ∧
      (∃ msg, UpdateRelease env r w = (some (GoError.New msg), w) ∧ names msg "Name") ∧
      (∃ msg, DeleteRelease env r w = (some (GoError.New msg), w) ∧ names msg "Name")) := by
  constructor
  · intro hp
    refine ⟨⟨Sprintf "Missing field \"%s\" required when creating a new release" "Product Id",
        ?_, ?_, ?_⟩,
      ⟨Sprintf "Missing field \"%s\" required when retrieving a release" "Product Id",
        ?_, ?_, ?_⟩,
      ⟨Sprintf "Missing field %s (needed to locate release in DB)" "Product Id", ?_, ?_, ?_⟩,
      ⟨Sprintf "Missing field %s (needed to locate release in DB)" "Product Id", ?_, ?_, ?_⟩⟩
    · simp only [AddRelease, hp]
    · decide
    · decide
    · simp only [GetRelease, hp]
    · decide
    · decide
    · simp only [UpdateRelease, hp]
    · decide
    · decide
    · simp only [DeleteRelease, hp]
    · decide
    · decide
  · intro hp hn
    obtain ⟨product_id, hp⟩ := Option.ne_none_iff_exists'.mp hp
    refine ⟨⟨Sprintf "Missing field \"%s\" required when creating a new release" "Name",
        ?_, ?_⟩,
      ⟨Sprintf "Missing field \"%s\" required when retrieving a release" "Name", ?_, ?_⟩,
      ⟨Sprintf "Missing field %s (needed to locate release in DB)" "Name", ?_, ?_⟩,
      ⟨Sprintf "Missing field %s (needed to locate release in DB)" "Name", ?_, ?_⟩⟩
    · simp only [AddRelease, hp, hn]
    · decide
    · simp only [GetRelease, hp, hn]
    · decide
    · simp only [UpdateRelease, hp, hn]
    · decide
    · simp only [DeleteRelease, hp, hn]
    · decide

/-- Witness for C1 on a release without any field and on one with only ProductId. -/
theorem required_fields_checked_before_store_witness :
    ((mkRelease none none none).ProductId = none ∧
      ∃ msg, AddRelease okEnv (mkRelease none none none) world0
          = (some (GoError.New msg), world0)
        ∧ names msg "Product Id" ∧ ¬ names msg "Name") ∧
    ((mkRelease (some 1) none none).ProductId ≠ none ∧
      (mkRelease (some 1) none none).Name = none ∧
      ∃ msg, DeleteRelease okEnv (mkRelease (some 1) none none) world0
          = (some (GoError.New msg), world0)
        ∧ names msg "Name") :=
  ⟨⟨rfl, ((required_fields_checked_before_store okEnv (mkRelease none none none)
      world0).1 rfl).1⟩,
    ⟨by decide, rfl, ((required_fields_checked_before_store okEnv
      (mkRelease (some 1) none none) world0).2 (by decide) rfl).2.2.2⟩⟩

/-- C2: UpdateRelease on a release with ProductId and Name but without TarballLink
returns the error "No new data to update release with" and leaves the handle as it
was: no statement is executed, so nothing stored is overwritten. -/
theorem update_without_tarball_is_rejected (env : Env σ) (r : Release) (w : World σ)
    (hp : r.ProductId ≠ none) (hn : r.Name ≠ none) (ht : r.TarballLink = none) :
    UpdateRelease env r w = (some (GoError.New "No new data to update release with"), w) := by
  obtain ⟨product_id, hp⟩ := Option.ne_none_iff_exists'.mp hp
  obtain ⟨name, hn⟩ := Option.ne_none_iff_exists'.mp hn
  simp only [UpdateRelease, hp, hn, ht]

/-- Witness for C2 on the release `{ProductId: 1, Name: "v1"}`. -/
theorem update_without_tarball_is_rejected_witness :
    UpdateRelease okEnv (mkRelease (some 1) (some "v1") none) world0
      = (some (GoError.New "No new data to update release with"), world0) :=
  update_without_tarball_is_rejected okEnv (mkRelease (some 1) (some "v1") none) world0
    (by decide) (by decide) rfl

/-- C8: AddRelease on a release with ProductId and Name appends exactly one call to
the handle's log, the insert statement: over `(product_id, name)` with arguments
`(ProductId, Name)` when TarballLink is absent, over `(product_id, name, tarball_link)`
with arguments `(ProductId, Name, TarballLink)` when it is present; the store moves as
that statement moves it, and AddRelease returns nil exactly when the statement does. -/
theorem add_release_runs_one_insert (env : Env σ) (r : Release) (w : World σ)
    (product_id : Int) (name : String)
    (hp : r.ProductId = some product_id) (hn : r.Name = some name) :
    (r.TarballLink = none →
      (AddRelease env r w).2.log = w.log ++
        [Call.Exec "INSERT INTO releases (product_id, name) VALUES (?, ?)"
          [SqlArg.int product_id, SqlArg.str name]] ∧
      (AddRelease env r w).2.store =
        (env.exec "INSERT INTO releases (product_id, name) VALUES (?, ?)"
          [SqlArg.int product_id, SqlArg.str name] w.store).2 ∧
      ((AddRelease env r w).1 = none ↔
        (env.exec "INSERT INTO releases (product_id, name) VALUES (?, ?)"
          [SqlArg.int product_id, SqlArg.str name] w.store).1 = none)) ∧
    (∀ tarball_link, r.TarballLink = some tarball_link →
      (AddRelease env r w).2.log = w.log ++
        [Call.Exec "INSERT INTO releases (product_id, name, tarball_link) VALUES (?, ?, ?)"
          [SqlArg.int product_id, SqlArg.str name, SqlArg.str tarball_link]] ∧
      (AddRelease env r w).2.store =
        (env.exec "INSERT INTO releases (product_id, name, tarball_link) VALUES (?, ?, ?)"
          [SqlArg.int product_id, SqlArg.str name, SqlArg.str tarball_link] w.store).2 ∧
      ((AddRelease env r w).1 = none ↔
        (env.exec "INSERT INTO releases (product_id, name, tarball_link) VALUES (?, ?, ?)"
          [SqlArg.int product_id, SqlArg.str name, SqlArg.str tarball_link]
          w.store).1 = none)) := by
  constructor
  · intro ht
    simp only [AddRelease, hp, hn, ht, dbExec]
    cases h : (env.exec "INSERT INTO releases (product_id, name) VALUES (?, ?)"
      [SqlArg.int product_id, SqlArg.str name] w.store).1 <;> simp
  · intro tarball_link ht
    simp only [AddRelease, hp, hn, ht, dbExec]
    cases h : (env.exec
      "INSERT INTO releases (product_id, name, tarball_link) VALUES (?, ?, ?)"
      [SqlArg.int product_id, SqlArg.str name, SqlArg.str tarball_link] w.store).1 <;> simp

/-- Witness for C8 on `{ProductId: 1, Name: "v1"}` with and without a tarball link. -/
theorem add_release_runs_one_insert_witness :
    ((AddRelease okEnv (mkRelease (some 1) (some "v1") none) world0).2.log =
        [Call.Exec "INSERT INTO releases (product_id, name) VALUES (?, ?)"
          [SqlArg.int 1, SqlArg.str "v1"]]) ∧
    ((AddRelease okEnv (mkRelease (some 1) (some "v1") (some "http://x/v1.tar")) world0).2.log =
        [Call.Exec "INSERT INTO releases (product_id, name, tarball_link) VALUES (?, ?, ?)"
          [SqlArg.int 1, SqlArg.str "v1", SqlArg.str "http://x/v1.tar"]]) :=
  ⟨((add_release_runs_one_insert okEnv (mkRelease (some 1) (some "v1") none) world0 1 "v1"
      rfl rfl).1 rfl).1,
   ((add_release_runs_one_insert okEnv
      (mkRelease (some 1) (some "v1") (some "http://x/v1.tar")) world0 1 "v1"
      rfl rfl).2 "http://x/v1.tar" rfl).1⟩

/-- C6: GetRelease on a release with ProductId and Name: when the row lookup by
`(Name, ProductId)` yields row `r` and GetAllImagesforRelease for `r.Id` yields the
list `L` with a nil error, GetRelease returns the six columns of `r` with `Images`
equal to `L` and a nil error; when the row lookup fails with `e` it returns the
non-nil error wrapping `e`; when the image resolution fails with `e` it returns the
non-nil error `e`. -/
theorem get_release_attaches_images (env : Env σ) (release : Release) (w : World σ)
    (product_id : Int) (name : String)
    (hp : release.ProductId = some product_id) (hn : release.Name = some name) :
    (∀ r w1 L w2,
      dbQueryRow env "SELECT * FROM releases WHERE name = ? AND product_id = ?"
        [SqlArg.str name, SqlArg.int product_id] w = (Except.ok r, w1) →
      GetAllImagesforRelease env r.Id w1 = ((L, none), w2) →
      GetRelease env release w =
        (({ Id := r.Id, ProductId := r.ProductId, Name := r.Name,
            TarballLink := r.TarballLink, CreatedAt := r.CreatedAt,
            UpdatedAt := r.UpdatedAt, Images := L }, none), w2)) ∧
    (∀ failure w1,
      dbQueryRow env "SELECT * FROM releases WHERE name = ? AND product_id = ?"
        [SqlArg.str name, SqlArg.int product_id] w = (Except.error failure, w1) →
      (GetRelease env release w).1.2 =
        some (GoError.Errorf "Error finding release: %w" failure.err)) ∧
    (∀ r w1 L e w2,
      dbQueryRow env "SELECT * FROM releases WHERE name = ? AND product_id = ?"
        [SqlArg.str name, SqlArg.int product_id] w = (Except.ok r, w1) →
      GetAllImagesforRelease env r.Id w1 = ((L, some e), w2) →
      (GetRelease env release w).1.2 = some e) := by
  refine ⟨?_, ?_, ?_⟩
  · intro r w1 L w2 hq hi
    simp only [GetRelease, hp, hn, hq, Scan, Release.zero, hi]
  · intro failure w1 hq
    simp only [GetRelease, hp, hn, hq]
  · intro r w1 L e w2 hq hi
    simp only [GetRelease, hp, hn, hq, Scan, Release.zero, hi]

/-- Witness for C6 on `{ProductId: 1, Name: "v1"}` over a store that answers and over
one that cannot be reached, and over one whose image resolution fails. -/
theorem get_release_attaches_images_witness :
    GetRelease okEnv (mkRelease (some 1) (some "v1") none) world0 =
      (({ Id := 1, ProductId := some 1, Name := some "v1", TarballLink := none,
          CreatedAt := "2023-05-01 10:00:00", UpdatedAt := "2023-05-01 10:00:00",
          Images := [{ Id := 10 }, { Id := 11 }] }, none),
        { store := 0,
          log := [Call.QueryRow "SELECT * FROM releases WHERE name = ? AND product_id = ?"
                    [SqlArg.str "v1", SqlArg.int 1],
                  Call.GetAllImagesforRelease 1] }) ∧
    (GetRelease downEnv (mkRelease (some 1) (some "v1") none) world0).1.2 =
      some (GoError.Errorf "Error finding release: %w" connRefused) ∧
    (GetRelease noImagesEnv (mkRelease (some 1) (some "v1") none) world0).1.2 =
      some connRefused :=
  ⟨(get_release_attaches_images okEnv (mkRelease (some 1) (some "v1") none) world0 1 "v1"
      rfl rfl).1 (sampleRow 1) _ _ _ rfl rfl,
   (get_release_attaches_images downEnv (mkRelease (some 1) (some "v1") none) world0 1 "v1"
      rfl rfl).2.1 { err := connRefused, stored := ReleaseRow.zero } _ rfl,
   (get_release_attaches_images noImagesEnv (mkRelease (some 1) (some "v1") none) world0 1
      "v1" rfl rfl).2.2 (sampleRow 1) _ [] connRefused _ rfl rfl⟩

/-! ## Listings (release.go) -/

theorem scanRows_ok (scanned : List ReleaseRow) (releases : List Release) :
    scanRows (scanned.map Except.ok) releases
      = (releases ++ scanned.map (fun row => Scan row Release.zero), none) := by
  induction scanned generalizing releases with
  | nil => simp [scanRows]
  | cons row rest ih => simp [scanRows, ih]

theorem scanRows_error (scanned : List ReleaseRow) (e : GoError)
    (rest : List (Except GoError ReleaseRow)) (releases : List Release) :
    scanRows (scanned.map Except.ok ++ Except.error e :: rest) releases = ([], some e) := by
  induction scanned generalizing releases with
  | nil => simp [scanRows]
  | cons row more ih => simp [scanRows, ih]

theorem scanRows_none (scans : List (Except GoError ReleaseRow))
    (releases out : List Release) (h : scanRows scans releases = (out, none)) :
    ∃ scanned : List ReleaseRow, scans = scanned.map Except.ok ∧
      out = releases ++ scanned.map (fun row => Scan row Release.zero) := by
  induction scans generalizing releases with
  | nil =>
    refine ⟨[], rfl, ?_⟩
    simp [scanRows] at h
    simp [h]
  | cons x rest ih =>
    cases x with
    | error e => simp [scanRows] at h
    | ok row =>
      simp only [scanRows] at h
      obtain ⟨scanned, h1, h2⟩ := ih _ h
      exact ⟨row :: scanned, by simp [h1], by simp [h2]⟩

theorem listResult_allOrNothing (q : Except GoError Rows) : AllOrNothing q (listResult q) := by
  refine ⟨?_, ?_, ?_, ?_, ?_⟩
  · intro e hq
    simp [hq, listResult]
  · intro rows scanned e rest hq hs
    simp [hq, listResult, hs, scanRows_error]
  · intro rows scanned e hq hs he
    simp [hq, listResult, hs, scanRows_ok, he]
  · cases q with
    | error e => simp [listResult]
    | ok rows =>
      simp only [listResult]
      split
      · simp
      · split <;> simp
  · cases q with
    | error e => simp [listResult]
    | ok rows =>
      simp only [listResult]
      split
      · simp
      · rename_i releases hsr
        split
        · simp
        · rename_i herr
          intro _
          obtain ⟨scanned, h1, h2⟩ := scanRows_none _ _ _ hsr
          exact ⟨rows, scanned, rfl, h1, herr, by simpa using h2⟩

theorem GetAllReleases_result (env : Env σ) (w : World σ) :
    (GetAllReleases env w).1 = listResult (dbQuery env "SELECT * FROM releases" [] w).1 := by
  unfold GetAllReleases listResult
  split
  · rename_i h; simp [h]
  · rename_i h; simp only [h]
    split
    · rfl
    · split <;> rfl

theorem GetAllReleasesforProduct_result (env : Env σ) (product_name : String) (w : World σ) :
    (GetAllReleasesforProduct env product_name w).1 =
      listResult (dbQuery env "SELECT * FROM releases WHERE product_id = ?"
        [SqlArg.int (GetProduct env product_name w).1.1.Id]
        (GetProduct env product_name w).2).1 := by
  unfold GetAllReleasesforProduct listResult
  simp only
  split
  · rename_i h; simp [h]
  · rename_i h; simp only [h]
    split
    · rfl
    · split <;> rfl

/-- C4: GetAllReleases and GetAllReleasesforProduct are all-or-nothing over their
query: a failed query, the first row that fails to scan, or an error reported by the
cursor after iteration each give the empty sequence together with that error; a
non-empty sequence comes only with a nil error; and a nil error comes only with a
cursor whose rows all scanned, the result being one release per row in cursor order. -/
theorem list_releases_all_or_nothing (env : Env σ) (w : World σ) (product_name : String) :
    AllOrNothing (dbQuery env "SELECT * FROM releases" [] w).1 (GetAllReleases env w).1 ∧
    AllOrNothing
      (dbQuery env "SELECT * FROM releases WHERE product_id = ?"
        [SqlArg.int (GetProduct env product_name w).1.1.Id]
        (GetProduct env product_name w).2).1
      (GetAllReleasesforProduct env product_name w).1 := by
  rw [GetAllReleases_result, GetAllReleasesforProduct_result]
  exact ⟨listResult_allOrNothing _, listResult_allOrNothing _⟩

/-- Witness for C4: a failed query, a failed scan of the second of three rows, a
cursor error after one row, and a listing of two rows. -/
theorem list_releases_all_or_nothing_witness :
    (GetAllReleases downEnv world0).1 = ([], some connRefused) ∧
    (GetAllReleasesforProduct scanFailEnv "acme" world0).1
      = ([], some (GoError.New "sql: Scan error on column index 3")) ∧
    (GetAllReleases cursorErrEnv world0).1 = ([], some (GoError.New "unexpected EOF")) ∧
    ((GetAllReleasesforProduct okEnv "acme" world0).1.1 ≠ [] ∧
      (GetAllReleasesforProduct okEnv "acme" world0).1.2 = none) :=
  ⟨(list_releases_all_or_nothing downEnv world0 "acme").1.1 connRefused rfl,
   (list_releases_all_or_nothing scanFailEnv world0 "acme").2.2.1 _ [sampleRow 1] _
      [Except.ok (sampleRow 3)] rfl rfl,
   (list_releases_all_or_nothing cursorErrEnv world0 "acme").1.2.2.1 _ [sampleRow 1] _
      rfl rfl rfl,
   by decide,
   (list_releases_all_or_nothing okEnv world0 "acme").2.2.2.2.1 (by decide)⟩

/-! ## Releases of an image (release.go) -/

theorem GetReleaseWithoutImages_log (env : Env σ) (release_id : Int) (w : World σ) :
    (GetReleaseWithoutImages env release_id w).2.log = w.log ++ [releaseLookup release_id] := by
  unfold GetReleaseWithoutImages
  simp only
  split <;> rename_i h <;> simp [dbQueryRow] at h <;> simp [← h.2, releaseLookup]

theorem GetReleaseWithoutImages_images (env : Env σ) (release_id : Int) (w w1 : World σ)
    (release : Release) (h : GetReleaseWithoutImages env release_id w = ((release, none), w1)) :
    release.Images = [] := by
  unfold GetReleaseWithoutImages at h
  simp only at h
  split at h
  · simp at h
  · simp only [Prod.mk.injEq, and_true] at h
    simp [← h.1, Scan, Release.zero]

theorem fetchReleases_spec (env : Env σ) (mappings : List Release_Image_Mapping)
    (fetched : List Release) (w : World σ) :
    ∃ lookups : List Int,
      (fetchReleases env mappings fetched w).2.log = w.log ++ lookups.map releaseLookup ∧
      lookups.map some <+: mappings.map (fun m => m.ReleaseId) ∧
      ∀ releases, (fetchReleases env mappings fetched w).1 = Outcome.returned (releases, none) →
        mappings.map (fun m => m.ReleaseId) = lookups.map some ∧
        ∃ added, releases = fetched ++ added ∧
          LookupChain env w lookups added (fetchReleases env mappings fetched w).2 ∧
          ∀ r ∈ added, r.Images = [] := by
  induction mappings generalizing fetched w with
  | nil =>
    refine ⟨[], by simp [fetchReleases], by simp, ?_⟩
    intro releases h
    simp [fetchReleases] at h
    exact ⟨rfl, [], by simp [h], by simpa [fetchReleases] using LookupChain.done w, by simp⟩
  | cons m rest ih =>
    cases hm : m.ReleaseId with
    | none =>
      refine ⟨[], by simp [fetchReleases, hm], by simp, ?_⟩
      intro releases h
      simp [fetchReleases, hm] at h
    | some release_id =>
      have hlog := GetReleaseWithoutImages_log env release_id w
      rcases hg : GetReleaseWithoutImages env release_id w with ⟨⟨release, err⟩, w1⟩
      rw [hg] at hlog
      cases err with
      | some e =>
        refine ⟨[release_id], ?_, ?_, ?_⟩
        · simp only [fetchReleases, hm, hg]
          simpa using hlog
        · simp [hm, List.cons_prefix_cons]
        · intro releases h
          simp [fetchReleases, hm, hg] at h
      | none =>
        obtain ⟨lookups, h1, h2, h3⟩ := ih (fetched ++ [release]) w1
        refine ⟨release_id :: lookups, ?_, ?_, ?_⟩
        · simp only [fetchReleases, hm, hg]
          rw [h1]
          simp only at hlog
          simp [hlog]
        · simpa [hm, List.cons_prefix_cons] using h2
        · intro releases h
          simp only [fetchReleases, hm, hg] at h
          obtain ⟨h4, added, h5, h6, h7⟩ := h3 releases h
          refine ⟨by simp [hm, h4], release :: added, by simp [h5], ?_, ?_⟩
          · simp only [fetchReleases, hm, hg]
            exact LookupChain.step hg h6
          · intro r hr
            rcases List.mem_cons.mp hr with rfl | hr
            · exact GetReleaseWithoutImages_images env release_id w w1 _ hg
            · exact h7 r hr

/-- C5 (amended): for every store state and image id, GetAllReleasesforImage makes one
GetReleaseMappings call followed only by GetReleaseWithoutImages lookups: the lookups
are, in mapping order, those of a leading segment of the mapping rows' ReleaseIds, at
most one per row, so the calls number at most the mapping rows plus one, and none of
them is a GetAllImagesforRelease call. When it returns a nil error the mapping lookup
succeeded, there is exactly one lookup per mapping row, the result is, in mapping
order, the release each of these lookups returned in the state of the handle in which
the run made it, the handle ends in the state the last lookup left, and every returned
release has an empty Images list. -/
theorem releases_for_image_lookups_bounded (env : Env σ) (image_id : Int) (w : World σ) :
    ∃ lookups : List Int,
      (GetAllReleasesforImage env image_id w).2.log =
        w.log ++ Call.GetReleaseMappings image_id :: lookups.map releaseLookup ∧
      lookups.map some <+:
        (GetReleaseMappings env image_id w).1.1.map (fun m => m.ReleaseId) ∧
      lookups.length ≤ (GetReleaseMappings env image_id w).1.1.length ∧
      (GetAllReleasesforImage env image_id w).2.log.length ≤
        w.log.length + ((GetReleaseMappings env image_id w).1.1.length + 1) ∧
      (∀ release_id, Call.GetAllImagesforRelease release_id ∉
        Call.GetReleaseMappings image_id :: lookups.map releaseLookup) ∧
      ∀ releases,
        (GetAllReleasesforImage env image_id w).1 = Outcome.returned (releases, none) →
        (GetReleaseMappings env image_id w).1.2 = none ∧
        (GetReleaseMappings env image_id w).1.1.map (fun m => m.ReleaseId)
          = lookups.map some ∧
        LookupChain env (GetReleaseMappings env image_id w).2 lookups releases
          (GetAllReleasesforImage env image_id w).2 ∧
        ∀ r ∈ releases, r.Images = [] := by
  have hno : ∀ (lookups : List Int) (release_id : Int), Call.GetAllImagesforRelease release_id ∉
      Call.GetReleaseMappings image_id :: lookups.map releaseLookup := by
    intro lookups release_id hmem
    rcases List.mem_cons.mp hmem with h | h
    · cases h
    · obtain ⟨id, _, hid⟩ := List.mem_map.mp h
      simp [releaseLookup] at hid
  have hlen : ∀ (lookups : List Int) (mappings : List Release_Image_Mapping),
      lookups.map some <+: mappings.map (fun m => m.ReleaseId) →
      lookups.length ≤ mappings.length := by
    intro lookups mappings h
    simpa using h.length_le
  have hmlog : (GetReleaseMappings env image_id w).2.log
      = w.log ++ [Call.GetReleaseMappings image_id] := rfl
  rcases hg : GetReleaseMappings env image_id w with ⟨⟨mappings, err⟩, w1⟩
  rw [hg] at hmlog
  simp only at hmlog
  cases err with
  | some e =>
    refine ⟨[], ?_, by simp, by simp, ?_, hno [], ?_⟩
    · simp [GetAllReleasesforImage, hg, hmlog]
    · simp [GetAllReleasesforImage, hg, hmlog]
    · intro releases h
      simp [GetAllReleasesforImage, hg] at h
  | none =>
    obtain ⟨lookups, h1, h2, h3⟩ := fetchReleases_spec env mappings [] w1
    have h2l := hlen lookups mappings h2
    refine ⟨lookups, ?_, h2, h2l, ?_, hno lookups, ?_⟩
    · simp [GetAllReleasesforImage, hg, h1, hmlog]
    · simp only [GetAllReleasesforImage, hg, h1, hmlog]
      simp
      omega
    · intro releases h
      simp only [GetAllReleasesforImage, hg] at h
      obtain ⟨h4, added, h5, h6, h7⟩ := h3 releases h
      simp only [List.nil_append] at h5
      subst h5
      refine ⟨rfl, h4, ?_, h7⟩
      simpa only [GetAllReleasesforImage, hg] using h6

/-- Witness for C5 (amended): on image 7, mapped to releases 1 and 2, three calls at
most; the run over a store that answers; and the run over a store whose state moves
with every lookup, where the second release is the one returned in the state the first
lookup left. -/
theorem releases_for_image_lookups_bounded_witness :
    (GetAllReleasesforImage okEnv 7 world0).2.log.length ≤ 3 ∧
    GetAllReleasesforImage okEnv 7 world0 =
      (Outcome.returned
        ([Scan (sampleRow 1) Release.zero, Scan (sampleRow 2) Release.zero], none),
       { store := 0,
         log := [Call.GetReleaseMappings 7, releaseLookup 1, releaseLookup 2] }) ∧
    GetAllReleasesforImage driftEnv 7 world0 =
      (Outcome.returned
        ([Scan (sampleRow 1) Release.zero, Scan (sampleRow 3) Release.zero], none),
       { store := 2,
         log := [Call.GetReleaseMappings 7, releaseLookup 1, releaseLookup 2] }) :=
  ⟨(releases_for_image_lookups_bounded okEnv 7 world0).elim (fun _ h => h.2.2.2.1),
   rfl, rfl⟩

/-- C5 (as stated, refuted): with image 7 mapped to two rows (releases 1 and 2) and no
row for any release, GetAllReleasesforImage makes the mapping lookup and one
GetReleaseWithoutImages lookup, for release 1, and returns its error: one lookup for two
mapping rows, not one per mapping row. -/
theorem releases_for_image_stops_at_failed_lookup :
    (GetReleaseMappings noReleaseEnv 7 world0).1 =
      ([{ ReleaseId := some 1, ImageId := some 7 },
        { ReleaseId := some 2, ImageId := some 7 }], none) ∧
    (GetAllReleasesforImage noReleaseEnv 7 world0).2.log =
      [Call.GetReleaseMappings 7, releaseLookup 1] ∧
    (GetAllReleasesforImage noReleaseEnv 7 world0).1 =
      Outcome.returned ([], some (GoError.Errorf "Error fetching release: %w" ErrNoRows)) ∧
    ¬ ((GetAllReleasesforImage noReleaseEnv 7 world0).2.log =
      Call.GetReleaseMappings 7 ::
        ((GetReleaseMappings noReleaseEnv 7 world0).1.1.filterMap
          (fun m => m.ReleaseId)).map releaseLookup) := by
  refine ⟨rfl, rfl, rfl, by decide⟩

/-- C3: with image 7 mapped to releases 1 and 2 and no row for release 2,
GetAllReleasesforImage returns the release it had accumulated for the first mapping row
together with the error of the second; `GetAllReleases`, on a failed scan of its
second row, returns the empty sequence. -/
theorem releases_for_image_returns_accumulated_on_failure :
    (GetReleaseMappings missingReleaseEnv 7 world0).1 =
      ([{ ReleaseId := some 1, ImageId := some 7 },
        { ReleaseId := some 2, ImageId := some 7 }], none) ∧
    (GetReleaseWithoutImages missingReleaseEnv 2 world0).1.2 =
      some (GoError.Errorf "Error fetching release: %w" ErrNoRows) ∧
    (GetAllReleasesforImage missingReleaseEnv 7 world0).1 =
      Outcome.returned
        ([Scan (sampleRow 1) Release.zero],
          some (GoError.Errorf "Error fetching release: %w" ErrNoRows)) ∧
    (GetAllReleases scanFailEnv world0).1 =
      ([], some (GoError.New "sql: Scan error on column index 3")) := by
  refine ⟨rfl, rfl, rfl, rfl⟩

/-- C7: when GetProduct fails for the name "ghost" and returns the zero product,
GetAllReleasesforProduct drops that error, queries the releases of product id 0 and
returns what that query gives, here no release and a nil error. -/
theorem releases_for_product_drops_product_error :
    (GetProduct ghostEnv "ghost" world0).1 = ({ Id := 0, Name := none }, some ErrNoRows) ∧
    (GetAllReleasesforProduct ghostEnv "ghost" world0).1 = ([], none) ∧
    (GetAllReleasesforProduct ghostEnv "ghost" world0).2.log =
      [Call.GetProduct "ghost",
       Call.Query "SELECT * FROM releases WHERE product_id = ?" [SqlArg.int 0],
       Call.RowsClose] := by
  refine ⟨rfl, rfl, rfl⟩

/-- C10: over a store whose statements fail with `connRefused`, AddRelease and
UpdateRelease return that error wrapped with their operation context, the message of
AddRelease being "Error creating new release: " followed by the store's message, and
DeleteRelease returns the store error itself, unwrapped. -/
theorem delete_release_returns_bare_store_error :
    (AddRelease downEnv (mkRelease (some 1) (some "v1") none) world0).1 =
      some (GoError.Errorf "Error creating new release: %w" connRefused) ∧
    (GoError.Errorf "Error creating new release: %w" connRefused).Error =
      "Error creating new release: " ++ connRefused.Error ∧
    (UpdateRelease downEnv (mkRelease (some 1) (some "v1") (some "http://x/v1.tar")) world0).1 =
      some (GoError.Errorf "Error updating new release: %w" connRefused) ∧
    (DeleteRelease downEnv (mkRelease (some 1) (some "v1") none) world0).1 =
      some connRefused ∧
    (DeleteRelease downEnv (mkRelease (some 1) (some "v1") none) world0).2.log =
      [Call.Exec "DELETE FROM releases WHERE name = ? AND product_id = ?"
        [SqlArg.str "v1", SqlArg.int 1]] := by
  refine ⟨rfl, by decide, rfl, rfl, rfl⟩

/-! ## Product handlers (product.go) -/

/-- C9: over a store whose calls fail, productGetByName (GetProduct failing) and
productPutByName (UpdateProduct failing) log the error and return without calling
anything on the response writer: the writer is as fresh as it was handed in, so the
client receives status 200 with an empty body, not 500. -/
theorem product_get_and_put_leave_response_unwritten :
    (GetProduct downEnv "acme" world0).1.2 = some connRefused ∧
    (productGetByName sampleApi downEnv ResponseWriter.fresh world0 "acme").w
      = ResponseWriter.fresh ∧
    (productGetByName sampleApi downEnv ResponseWriter.fresh world0 "acme").logged
      = [LogEntry.Error connRefused] ∧
    (productGetByName sampleApi downEnv ResponseWriter.fresh world0 "acme").w.sentStatus
      = 200 ∧
    (UpdateProduct downEnv "acme2" "acme" world0).1 = some connRefused ∧
    (productPutByName sampleApi downEnv ResponseWriter.fresh "acme2" world0 "acme").1
      = Outcome.returned () ∧
    (productPutByName sampleApi downEnv ResponseWriter.fresh "acme2" world0 "acme").2.w
      = ResponseWriter.fresh ∧
    (productPutByName sampleApi downEnv ResponseWriter.fresh "acme2" world0 "acme").2.logged
      = [LogEntry.Error connRefused] ∧
    (productPutByName sampleApi downEnv ResponseWriter.fresh "acme2" world0
      "acme").2.w.sentStatus = 200 ∧
    ResponseWriter.fresh.body = "" := by
  refine ⟨rfl, rfl, rfl, rfl, rfl, rfl, rfl, rfl, rfl, rfl⟩

end Carbide
